import Mathlib

/-!
Shallow embedding of the LIMBLinkAI triage rule engine (src/main.py).

Python floats are modelled as rationals (`ℚ`): the source performs no
floating-point arithmetic, only comparisons against decimal literals, so the
order structure is preserved exactly. Optional values are `Option ℚ`
(`None` ↦ `none`). Python ints are `ℤ`. The mutable `notes` list that the
source functions append to is threaded explicitly: each function takes the
current list and returns the result paired with the updated list.
-/

namespace Triage

/-- Input record `PatientCase` (src/main.py lines 18-37). -/
structure PatientCase where
  wound_grade : ℤ
  ischemia_grade : ℤ
  infection_grade : ℤ
  ABI : Option ℚ
  Toe_pressure : Option ℚ
  TcPO2 : Option ℚ
  CRP : Option ℚ
  ESR : Option ℚ
  Procalcitonin : Option ℚ
  Lactate : Option ℚ
  HbA1c : Option ℚ
  Fructosamine : Option ℚ
deriving Repr, DecidableEq

/-- Python truthiness of `derived or c` where `derived : Optional[int]`:
`None` and `0` are falsy, so the expression yields `c` in those cases and
the stored value otherwise. -/
def py_or (d : Option ℤ) (c : ℤ) : ℤ :=
  match d with
  | none => c
  | some x => if x = 0 then c else x

/-- The toe-pressure block of `refine_ischemia_grade` (src/main.py lines
57-67): given the `(derived, notes)` state, update it when toe pressure is
present. The three `if`/`elif` arms mirror the source, including the absence
of a final `else` (values strictly between 39 and 40 leave the state
unchanged). -/
def toe_block (toe : Option ℚ) (st : Option ℤ × List String) :
    Option ℤ × List String :=
  match toe with
  | none => st
  | some t =>
    if t < 30 then
      (some (max 3 (py_or st.1 3)), st.2 ++ [s!"Toe pressure {t} mmHg → Ischemia 3"])
    else if 30 ≤ t ∧ t ≤ 39 then
      (some (max 2 (py_or st.1 2)), st.2 ++ [s!"Toe pressure {t} mmHg → Ischemia 2"])
    else if 40 ≤ t then
      (some (max 0 (py_or st.1 0)), st.2 ++ [s!"Toe pressure {t} mmHg → Ischemia 0–1"])
    else st

/-- The TcPO₂ block of `refine_ischemia_grade` (src/main.py lines 70-79),
analogous to `toe_block`; values strictly between 29 and 30 leave the state
unchanged. -/
def tcpo2_block (tcpo2 : Option ℚ) (st : Option ℤ × List String) :
    Option ℤ × List String :=
  match tcpo2 with
  | none => st
  | some t =>
    if t < 20 then
      (some (max 3 (py_or st.1 3)), st.2 ++ [s!"TcPO₂ {t} mmHg → Ischemia 3"])
    else if 20 ≤ t ∧ t ≤ 29 then
      (some (max 2 (py_or st.1 2)), st.2 ++ [s!"TcPO₂ {t} mmHg → Ischemia 2"])
    else if 30 ≤ t then
      (some (max 0 (py_or st.1 0)), st.2 ++ [s!"TcPO₂ {t} mmHg → Ischemia 0–1"])
    else st

/-- `refine_ischemia_grade` (src/main.py lines 44-89): combine the
user-asserted grade with the perfusion-derived candidate. The float literal
`1.30` is the rational `13/10`. -/
def refine_ischemia_grade (user_grade : ℤ) (abi toe tcpo2 : Option ℚ)
    (notes : List String) : ℤ × List String :=
  let st := tcpo2_block tcpo2 (toe_block toe (none, notes))
  match abi with
  | some a =>
    if (13/10 : ℚ) < a then
      ((st.1).getD user_grade,
        st.2 ++ [s!"ABI {a} (>1.30): likely noncompressible → prefer toe/TcPO₂"])
    else
      match st.1 with
      | none => (user_grade, st.2)
      | some d => (max user_grade d, st.2)
  | none =>
    match st.1 with
    | none => (user_grade, st.2)
    | some d => (max user_grade d, st.2)

/-- `wifI_stage_estimate` (src/main.py lines 92-118): heuristic stage from
the three component grades, first matching rule wins. -/
def wifI_stage_estimate (w i f : ℤ) (notes : List String) : ℤ × List String :=
  let mx := max w (max i f)
  let s := w + i + f
  if (w = 3 ∧ (2 ≤ i ∨ 2 ≤ f)) ∨ (i = 3 ∧ (2 ≤ w ∨ 2 ≤ f)) ∨
      (f = 3 ∧ (2 ≤ w ∨ 2 ≤ i)) then
    (4, notes ++ ["High component grades (≥3 with another ≥2) → Stage 4"])
  else if 7 ≤ s then
    let stage : ℤ := if mx = 3 then 4 else 3
    (stage, notes ++ [s!"Sum {s} with max {mx} → Stage {stage}"])
  else if 4 ≤ s ∧ s ≤ 6 then
    let stage : ℤ := if mx = 3 then 3 else 2
    (stage, notes ++ [s!"Sum {s} with max {mx} → Stage {stage}"])
  else
    (1, notes ++ [s!"Sum {s} → Stage 1"])

/-- Result pair of `idsa_pedis_with_biomarkers` (the dict with keys
`idsa_pedis_grade` and `risk_level`). -/
structure InfResult where
  idsa_pedis_grade : String
  risk_level : String
deriving Repr, DecidableEq

/-- CRP contribution to `high_flags` (src/main.py lines 147-148). -/
def crp_high_flag (crp : Option ℚ) : List String :=
  match crp with
  | some c => if (100 : ℚ) ≤ c then [s!"CRP {c} ≥100"] else []
  | none => []

/-- ESR contribution to `high_flags` (src/main.py lines 149-150). -/
def esr_high_flag (esr : Option ℚ) : List String :=
  match esr with
  | some e => if (70 : ℚ) ≤ e then [s!"ESR {e} ≥70"] else []
  | none => []

/-- Lactate contribution to `high_flags` (src/main.py lines 151-152). -/
def lact_high_flag (lact : Option ℚ) : List String :=
  match lact with
  | some l => if (2 : ℚ) ≤ l ∧ l < 4 then [s!"Lactate {l} 2.0–3.9"] else []
  | none => []

/-- Procalcitonin contribution to `high_flags` (src/main.py lines 153-154). -/
def pct_high_flag (pct : Option ℚ) : List String :=
  match pct with
  | some p => if (1/2 : ℚ) ≤ p ∧ p < 2 then [s!"PCT {p} 0.5–1.99"] else []
  | none => []

/-- The `high_flags` list built in `idsa_pedis_with_biomarkers`
(src/main.py lines 146-154): the four contributions appended in source
order (CRP, ESR, Lactate, PCT). -/
def high_flags (crp esr pct lact : Option ℚ) : List String :=
  crp_high_flag crp ++ esr_high_flag esr ++ lact_high_flag lact ++ pct_high_flag pct

/-- The `mod_flags` list built in `idsa_pedis_with_biomarkers`
(src/main.py lines 162-164). -/
def mod_flags (crp : Option ℚ) : List String :=
  match crp with
  | some c => if (50 : ℚ) ≤ c ∧ c < 100 then [s!"CRP {c} 50–99"] else []
  | none => []

/-- `idsa_pedis_with_biomarkers` (src/main.py lines 121-172): ordered
decision table from the four optional biomarkers to an infection grade and
risk level, appending rationale notes. -/
def idsa_pedis_with_biomarkers (crp esr pct lact : Option ℚ)
    (notes : List String) : InfResult × List String :=
  if (lact.any fun x => decide ((4 : ℚ) ≤ x)) ||
      (pct.any fun x => decide ((2 : ℚ) ≤ x)) then
    let notes1 := match lact with
      | some l => if (4 : ℚ) ≤ l then notes ++ [s!"Lactate {l} ≥4.0 → Severe infection"] else notes
      | none => notes
    let notes2 := match pct with
      | some p => if (2 : ℚ) ≤ p then notes1 ++ [s!"Procalcitonin {p} ≥2.0 → Severe infection"] else notes1
      | none => notes1
    (⟨"Severe", "Critical"⟩, notes2)
  else
    let hf := high_flags crp esr pct lact
    if hf ≠ [] then
      (⟨"Moderate", "High"⟩, notes ++ hf.map (fun x => x ++ " → Moderate–Severe infection"))
    else
      let mf := mod_flags crp
      if mf ≠ [] then
        (⟨"Mild–Moderate", "Moderate"⟩, notes ++ mf.map (fun x => x ++ " → Mild–Moderate infection"))
      else
        (⟨"None–Mild", "Low"⟩, notes ++ ["No systemic biomarker red flags → Low infection severity"])

/-- `plan_recommendations` (src/main.py lines 175-214): returns the
recommendations list paired with the updated flags list (the source mutates
`flags` in place). -/
def plan_recommendations (stage : ℤ) (inf_level : String) (refined_I : ℤ)
    (hbA1c : Option ℚ) (flags : List String) : List String × List String :=
  let recs : List String :=
    if inf_level = "Critical" then
      ["Admit now; start IV broad-spectrum antibiotics",
       "Urgent surgical source control if abscess/necrosis"]
    else if inf_level = "High" then
      ["Strongly consider admission for IV antibiotics",
       "Imaging for osteomyelitis (MRI or bone biopsy if indicated)"]
    else if inf_level = "Moderate" then
      ["Outpatient management reasonable; close follow-up 24–48h",
       "Consider targeted antibiotics per cultures, debridement if needed"]
    else
      ["Routine wound care and offloading; monitor"]
  let recs :=
    if refined_I = 3 ∨ 3 ≤ stage then
      recs ++ ["Vascular consult within 24–48 hours"]
    else if refined_I = 2 then
      recs ++ ["Vascular referral; noninvasive testing as needed"]
    else recs
  match hbA1c with
  | some h =>
    if (9 : ℚ) ≤ h then
      (recs ++ ["Intensify glycemic control and nutrition optimization"],
       flags ++ [s!"HbA1c {h} ≥9% → slower healing expected"])
    else (recs, flags)
  | none => (recs, flags)

/-- Response record of the legacy `/evaluate` endpoint. -/
structure EvalLegacy where
  WIfI_stage : ℤ
  AI_risk_level : String
  AI_summary : String
deriving Repr, DecidableEq

/-- `evaluate_legacy` (src/main.py lines 219-256). -/
def evaluate_legacy (c : PatientCase) : EvalLegacy :=
  let r1 := refine_ischemia_grade c.ischemia_grade c.ABI c.Toe_pressure c.TcPO2 []
  let r2 := wifI_stage_estimate c.wound_grade r1.1 c.infection_grade r1.2
  let stage := r2.1
  let r3 := idsa_pedis_with_biomarkers c.CRP c.ESR c.Procalcitonin c.Lactate r2.2
  let level0 := (r3.1).risk_level
  let level := if (level0 = "Low" ∨ level0 = "Moderate") ∧ 3 ≤ stage then "High" else level0
  let summary :=
    if level = "Critical" then
      "Severe infection/systemic risk. Admit for IV antibiotics, urgent source control, and vascular consult."
    else if level = "High" then
      "Moderate–severe infection likely. Consider admission, imaging for osteomyelitis, and vascular evaluation."
    else if level = "Moderate" then
      "Mild–moderate infection. Outpatient care reasonable with close follow-up; consider targeted antibiotics."
    else
      "Low infection severity. Routine care, offloading, and monitoring."
  ⟨stage, level, summary⟩

/-- Response record of the `/evaluate_v2` endpoint (src/main.py lines
288-307), flattened: section fields are inlined with their source names.
Note the source computes a local `overall` risk but does not include it in
the returned record; `risk_level` below is the raw infection risk level as
in the source's `infection` section. -/
structure EvalV2 where
  W : ℤ
  I : ℤ
  F : ℤ
  wIfI_stage : ℤ
  ABI : Option ℚ
  Toe_pressure : Option ℚ
  TcPO2 : Option ℚ
  CRP : Option ℚ
  ESR : Option ℚ
  Procalcitonin : Option ℚ
  Lactate : Option ℚ
  idsa_pedis_grade : String
  risk_level : String
  HbA1c : Option ℚ
  Fructosamine : Option ℚ
  recommendations : List String
  flags : List String
  rationale : List String
  version : String
deriving Repr, DecidableEq

/-- `evaluate_v2` (src/main.py lines 259-307). -/
def evaluate_v2 (c : PatientCase) : EvalV2 :=
  let r1 := refine_ischemia_grade c.ischemia_grade c.ABI c.Toe_pressure c.TcPO2 []
  let refined_I := r1.1
  let r2 := wifI_stage_estimate c.wound_grade refined_I c.infection_grade r1.2
  let stage := r2.1
  let r3 := idsa_pedis_with_biomarkers c.CRP c.ESR c.Procalcitonin c.Lactate r2.2
  let inf := r3.1
  let inf_level := inf.risk_level
  let pr := plan_recommendations stage inf_level refined_I c.HbA1c []
  let overall := inf_level
  let rationale :=
    if (overall = "Low" ∨ overall = "Moderate") ∧ 3 ≤ stage then
      r3.2 ++ [s!"WIfI Stage {stage} escalates overall risk → High"]
    else r3.2
  ⟨c.wound_grade, refined_I, c.infection_grade, stage,
   c.ABI, c.Toe_pressure, c.TcPO2,
   c.CRP, c.ESR, c.Procalcitonin, c.Lactate,
   inf.idsa_pedis_grade, inf_level,
   c.HbA1c, c.Fructosamine,
   pr.1, pr.2, rationale, "1.1.0"⟩

/-- The local `overall` variable computed in `evaluate_v2` (src/main.py
lines 283-286): the overall risk level of the detailed computation. The
returned record does not expose it, but its escalation is logged in the
rationale and the legacy endpoint exposes the identical merge. -/
def evaluate_v2_overall (c : PatientCase) : String :=
  let refined_I := (refine_ischemia_grade c.ischemia_grade c.ABI c.Toe_pressure c.TcPO2 []).1
  let stage := (wifI_stage_estimate c.wound_grade refined_I c.infection_grade []).1
  let inf_level := (idsa_pedis_with_biomarkers c.CRP c.ESR c.Procalcitonin c.Lactate []).1.risk_level
  if (inf_level = "Low" ∨ inf_level = "Moderate") ∧ 3 ≤ stage then "High" else inf_level

/-- Rank of a risk-level label in the ordering Low < Moderate < High <
Critical used by the spec. -/
def riskRank : String → ℕ
  | "Moderate" => 1
  | "High" => 2
  | "Critical" => 3
  | _ => 0

/-- Candidate ischemia grade derived from a toe-pressure value, read off the
branch conditions of `toe_block` (src/main.py lines 58-67); `none` exactly
when no branch fires, i.e. on the uncovered open interval (39, 40). -/
def toe_cand (t : ℚ) : Option ℤ :=
  if t < 30 then some 3
  else if 30 ≤ t ∧ t ≤ 39 then some 2
  else if 40 ≤ t then some 0
  else none

/-- Candidate ischemia grade derived from a TcPO₂ value, read off the branch
conditions of `tcpo2_block` (src/main.py lines 70-79); `none` exactly on the
uncovered open interval (29, 30). -/
def tc_cand (t : ℚ) : Option ℤ :=
  if t < 20 then some 3
  else if 20 ≤ t ∧ t ≤ 29 then some 2
  else if 30 ≤ t then some 0
  else none

/-- Total band value for toe pressure: agrees with `toe_cand` on all covered
values (everything outside (39, 40)). -/
def toe_band (t : ℚ) : ℤ := if t < 30 then 3 else if t ≤ 39 then 2 else 0

/-- Total band value for TcPO₂: agrees with `tc_cand` on all covered values
(everything outside (29, 30)). -/
def tc_band (t : ℚ) : ℤ := if t < 20 then 3 else if t ≤ 29 then 2 else 0

/-- The `derived` variable of `refine_ischemia_grade` after both perfusion
blocks, expressed through the per-measurement candidates. -/
def derived_val (toe tc : Option ℚ) : Option ℤ :=
  match tc.bind tc_cand with
  | none => toe.bind toe_cand
  | some c => some (max c (py_or (toe.bind toe_cand) c))

/-- The final ABI dispatch of `refine_ischemia_grade` (src/main.py lines
82-89) as a function of the user grade, ABI and the derived value. -/
def refine_val (g : ℤ) (abi : Option ℚ) (d : Option ℤ) : ℤ :=
  match abi with
  | some a =>
    if (13/10 : ℚ) < a then d.getD g
    else match d with
      | none => g
      | some x => max g x
  | none =>
    match d with
    | none => g
    | some x => max g x

/-- Stage assigned by the spec's priority-ordered rules, stated from the
spec's words (section 4.2), first match wins: rule 1 (a grade of 3 with
another ≥ 2) → 4; rule 2 (sum ≥ 7) → 4 if the max grade is 3 else 3;
rule 3 (4 ≤ sum ≤ 6) → 3 if the max grade is 3 else 2; rule 4 → 1. -/
def spec_stage (w i f : ℤ) : ℤ :=
  if (w = 3 ∧ (2 ≤ i ∨ 2 ≤ f)) ∨ (i = 3 ∧ (2 ≤ w ∨ 2 ≤ f)) ∨
      (f = 3 ∧ (2 ≤ w ∨ 2 ≤ i)) then 4
  else if 7 ≤ w + i + f ∧ max w (max i f) = 3 then 4
  else if 7 ≤ w + i + f then 3
  else if (4 ≤ w + i + f ∧ w + i + f ≤ 6) ∧ max w (max i f) = 3 then 3
  else if 4 ≤ w + i + f ∧ w + i + f ≤ 6 then 2
  else 1

/-- Refined ischemia grade of the pipeline (the `refined_I` local of both
endpoints), with the empty initial notes list. -/
def refined_I0 (c : PatientCase) : ℤ :=
  (refine_ischemia_grade c.ischemia_grade c.ABI c.Toe_pressure c.TcPO2 []).1

/-- Stage of the pipeline (the `stage` local of both endpoints). -/
def stage0 (c : PatientCase) : ℤ :=
  (wifI_stage_estimate c.wound_grade (refined_I0 c) c.infection_grade []).1

/-- Infection grading result of the pipeline (the `inf` local of both
endpoints). -/
def inf0 (c : PatientCase) : InfResult :=
  (idsa_pedis_with_biomarkers c.CRP c.ESR c.Procalcitonin c.Lactate []).1

/-- Modelled from the spec: the fixed mapping from overall risk level to the
legacy summary sentence (spec section 4.5 / output contract, legacy form),
one fixed sentence per level with a default for the remaining levels. -/
def legacy_summary_for (level : String) : String :=
  if level = "Critical" then
    "Severe infection/systemic risk. Admit for IV antibiotics, urgent source control, and vascular consult."
  else if level = "High" then
    "Moderate–severe infection likely. Consider admission, imaging for osteomyelitis, and vascular evaluation."
  else if level = "Moderate" then
    "Mild–moderate infection. Outpatient care reasonable with close follow-up; consider targeted antibiotics."
  else
    "Low infection severity. Routine care, offloading, and monitoring."

end Triage

/-! ### Helper lemmas -/

namespace Triage

theorem obind_some (f : ℚ → Option ℤ) (t : ℚ) : (some t).bind f = f t := rfl

theorem wifI_stage_fst_notes (w i f : ℤ) (n1 n2 : List String) :
    (wifI_stage_estimate w i f n1).1 = (wifI_stage_estimate w i f n2).1 := by
  simp only [wifI_stage_estimate]
  split_ifs <;> rfl

theorem idsa_fst_notes (crp esr pct lact : Option ℚ) (n1 n2 : List String) :
    (idsa_pedis_with_biomarkers crp esr pct lact n1).1 =
      (idsa_pedis_with_biomarkers crp esr pct lact n2).1 := by
  simp only [idsa_pedis_with_biomarkers]
  split_ifs <;> rfl

theorem toe_block_fst (toe : Option ℚ) (st : Option ℤ × List String) :
    (toe_block toe st).1 =
      match toe.bind toe_cand with
      | none => st.1
      | some c => some (max c (py_or st.1 c)) := by
  rcases toe with _ | t
  · rfl
  · dsimp only [toe_block, toe_cand, Option.bind]
    split_ifs <;> rfl

theorem tcpo2_block_fst (tc : Option ℚ) (st : Option ℤ × List String) :
    (tcpo2_block tc st).1 =
      match tc.bind tc_cand with
      | none => st.1
      | some c => some (max c (py_or st.1 c)) := by
  rcases tc with _ | t
  · rfl
  · dsimp only [tcpo2_block, tc_cand, Option.bind]
    split_ifs <;> rfl

theorem toe_block_fst_none (toe : Option ℚ) (n : List String) :
    (toe_block toe (none, n)).1 = toe.bind toe_cand := by
  rw [toe_block_fst]
  rcases h : toe.bind toe_cand with _ | c
  · rfl
  · dsimp only [py_or]
    rw [max_self]

theorem refine_fst (g : ℤ) (abi toe tc : Option ℚ) (n : List String) :
    (refine_ischemia_grade g abi toe tc n).1 = refine_val g abi (derived_val toe tc) := by
  have hd : (tcpo2_block tc (toe_block toe (none, n))).1 = derived_val toe tc := by
    rw [tcpo2_block_fst, toe_block_fst_none, derived_val]
  simp only [refine_ischemia_grade, refine_val]
  rcases abi with _ | a
  · rw [← hd]
    rcases h : (tcpo2_block tc (toe_block toe (none, n))).1 with _ | x <;> rfl
  · rw [← hd]
    rcases h : (tcpo2_block tc (toe_block toe (none, n))).1 with _ | x <;>
      dsimp only <;> split_ifs <;> rfl

theorem toe_cand_covered (t : ℚ) (h : t ≤ 39 ∨ 40 ≤ t) :
    toe_cand t = some (toe_band t) := by
  unfold toe_cand toe_band
  rcases h with h | h
  · by_cases h1 : t < 30
    · simp [h1]
    · have h30 : (30 : ℚ) ≤ t := by linarith
      have hc : (30 : ℚ) ≤ t ∧ t ≤ 39 := ⟨h30, h⟩
      simp [h1, hc, h]
  · have h1 : ¬ t < 30 := by linarith
    have h2 : ¬ ((30 : ℚ) ≤ t ∧ t ≤ 39) := by rintro ⟨_, h39⟩; linarith
    have h3 : ¬ t ≤ 39 := by linarith
    have h4 : (40 : ℚ) ≤ t := h
    simp [h1, h2, h3, h4]

theorem tc_cand_covered (t : ℚ) (h : t ≤ 29 ∨ 30 ≤ t) :
    tc_cand t = some (tc_band t) := by
  unfold tc_cand tc_band
  rcases h with h | h
  · by_cases h1 : t < 20
    · simp [h1]
    · have h20 : (20 : ℚ) ≤ t := by linarith
      have hc : (20 : ℚ) ≤ t ∧ t ≤ 29 := ⟨h20, h⟩
      simp [h1, hc, h]
  · have h1 : ¬ t < 20 := by linarith
    have h2 : ¬ ((20 : ℚ) ≤ t ∧ t ≤ 29) := by rintro ⟨_, h29⟩; linarith
    have h3 : ¬ t ≤ 29 := by linarith
    have h4 : (30 : ℚ) ≤ t := h
    simp [h1, h2, h3, h4]

theorem toe_band_antitone (t1 t2 : ℚ) (h : t1 ≤ t2) : toe_band t2 ≤ toe_band t1 := by
  unfold toe_band
  split_ifs <;> linarith

theorem tc_band_antitone (t1 t2 : ℚ) (h : t1 ≤ t2) : tc_band t2 ≤ tc_band t1 := by
  unfold tc_band
  split_ifs <;> linarith

theorem toe_band_nonneg (t : ℚ) : 0 ≤ toe_band t := by
  unfold toe_band; split_ifs <;> norm_num

theorem py_or_left_mono (b1 b2 c : ℤ) (h0 : 0 ≤ b2) (h : b2 ≤ b1) :
    max c (py_or (some b2) c) ≤ max c (py_or (some b1) c) := by
  unfold py_or
  dsimp only
  split_ifs <;> omega

theorem py_or_right_mono (a : Option ℤ) (c1 c2 : ℤ) (h : c2 ≤ c1) :
    max c2 (py_or a c2) ≤ max c1 (py_or a c1) := by
  rcases a with _ | x
  · simpa [py_or] using h
  · unfold py_or
    dsimp only
    split_ifs <;> omega

theorem refine_val_mono (g : ℤ) (abi : Option ℚ) (x1 x2 : ℤ) (h : x2 ≤ x1) :
    refine_val g abi (some x2) ≤ refine_val g abi (some x1) := by
  unfold refine_val
  rcases abi with _ | a
  · exact max_le_max le_rfl h
  · dsimp only
    split_ifs
    · simpa using h
    · exact max_le_max le_rfl h

theorem crp_high_flag_ne_nil (crp : Option ℚ) :
    crp_high_flag crp ≠ [] ↔ (crp.any fun x => decide ((100 : ℚ) ≤ x)) = true := by
  rcases crp with _ | v
  · simp [crp_high_flag]
  · simp only [crp_high_flag, Option.any_some, decide_eq_true_eq]
    split_ifs with h
    · exact iff_of_true (by simp) h
    · exact iff_of_false (by simp) h

theorem esr_high_flag_ne_nil (esr : Option ℚ) :
    esr_high_flag esr ≠ [] ↔ (esr.any fun x => decide ((70 : ℚ) ≤ x)) = true := by
  rcases esr with _ | v
  · simp [esr_high_flag]
  · simp only [esr_high_flag, Option.any_some, decide_eq_true_eq]
    split_ifs with h
    · exact iff_of_true (by simp) h
    · exact iff_of_false (by simp) h

theorem lact_high_flag_ne_nil (lact : Option ℚ) :
    lact_high_flag lact ≠ [] ↔ (lact.any fun x => decide ((2 : ℚ) ≤ x ∧ x < 4)) = true := by
  rcases lact with _ | v
  · simp [lact_high_flag]
  · simp only [lact_high_flag, Option.any_some, decide_eq_true_eq]
    split_ifs with h
    · exact iff_of_true (by simp) h
    · exact iff_of_false (by simp) h

theorem pct_high_flag_ne_nil (pct : Option ℚ) :
    pct_high_flag pct ≠ [] ↔ (pct.any fun x => decide ((1/2 : ℚ) ≤ x ∧ x < 2)) = true := by
  rcases pct with _ | v
  · simp [pct_high_flag]
  · simp only [pct_high_flag, Option.any_some, decide_eq_true_eq]
    split_ifs with h
    · exact iff_of_true (by simp) h
    · exact iff_of_false (by simp) h

theorem mod_flags_ne_nil (crp : Option ℚ) :
    mod_flags crp ≠ [] ↔ (crp.any fun x => decide ((50 : ℚ) ≤ x ∧ x < 100)) = true := by
  rcases crp with _ | v
  · simp [mod_flags]
  · simp only [mod_flags, Option.any_some, decide_eq_true_eq]
    split_ifs with h
    · exact iff_of_true (by simp) h
    · exact iff_of_false (by simp) h

theorem high_flags_ne_nil (crp esr pct lact : Option ℚ) :
    high_flags crp esr pct lact ≠ [] ↔
      ((crp.any fun x => decide ((100 : ℚ) ≤ x)) || (esr.any fun x => decide ((70 : ℚ) ≤ x)) ||
       (lact.any fun x => decide ((2 : ℚ) ≤ x ∧ x < 4)) ||
       (pct.any fun x => decide ((1/2 : ℚ) ≤ x ∧ x < 2))) = true := by
  rw [high_flags, Ne]
  simp only [List.append_eq_nil, not_and_or, ← ne_eq, crp_high_flag_ne_nil,
    esr_high_flag_ne_nil, lact_high_flag_ne_nil, pct_high_flag_ne_nil, Bool.or_eq_true]

end Triage

/-! ### Claim theorems -/

namespace Triage

/-- C1: for all integer grades W, I, F each in [0,3], `wifI_stage_estimate`
returns the stage given by the spec's priority-ordered rules (first match
wins), and the result is always in {1,2,3,4}. -/
theorem wifI_stage_matches_spec_rules (w i f : ℤ) (notes : List String)
    (hw0 : 0 ≤ w) (hw3 : w ≤ 3) (hi0 : 0 ≤ i) (hi3 : i ≤ 3)
    (hf0 : 0 ≤ f) (hf3 : f ≤ 3) :
    (wifI_stage_estimate w i f notes).1 = spec_stage w i f ∧
    (wifI_stage_estimate w i f notes).1 ∈ ([1, 2, 3, 4] : List ℤ) := by
  rw [wifI_stage_fst_notes w i f notes []]
  interval_cases w <;> interval_cases i <;> interval_cases f <;> decide

/-- Witness for C1 at the concrete grades (3, 2, 1). -/
theorem wifI_stage_matches_spec_rules_witness :
    ((0 : ℤ) ≤ 3 ∧ (3 : ℤ) ≤ 3 ∧ (0 : ℤ) ≤ 2 ∧ (2 : ℤ) ≤ 3 ∧ (0 : ℤ) ≤ 1 ∧ (1 : ℤ) ≤ 3) ∧
    ((wifI_stage_estimate 3 2 1 []).1 = spec_stage 3 2 1 ∧
      (wifI_stage_estimate 3 2 1 []).1 ∈ ([1, 2, 3, 4] : List ℤ)) :=
  ⟨⟨by decide, by decide, by decide, by decide, by decide, by decide⟩,
    wifI_stage_matches_spec_rules 3 2 1 [] (by decide) (by decide) (by decide)
      (by decide) (by decide) (by decide)⟩

/-- C2: `idsa_pedis_with_biomarkers` realises the spec's ordered decision
table, first match wins, with absent values never triggering a branch; and
on all-absent biomarkers it returns grade None–Mild, risk Low, and appends
the explicit no-red-flags rationale entry. -/
theorem infection_grading_matches_spec_table (crp esr pct lact : Option ℚ)
    (notes : List String) :
    (idsa_pedis_with_biomarkers crp esr pct lact notes).1 =
      (if (lact.any fun x => decide ((4 : ℚ) ≤ x)) || (pct.any fun x => decide ((2 : ℚ) ≤ x)) then
        ⟨"Severe", "Critical"⟩
      else if (crp.any fun x => decide ((100 : ℚ) ≤ x)) || (esr.any fun x => decide ((70 : ℚ) ≤ x)) ||
          (lact.any fun x => decide ((2 : ℚ) ≤ x ∧ x < 4)) ||
          (pct.any fun x => decide ((1/2 : ℚ) ≤ x ∧ x < 2)) then
        ⟨"Moderate", "High"⟩
      else if crp.any fun x => decide ((50 : ℚ) ≤ x ∧ x < 100) then
        ⟨"Mild–Moderate", "Moderate"⟩
      else ⟨"None–Mild", "Low"⟩) ∧
    idsa_pedis_with_biomarkers none none none none notes =
      (⟨"None–Mild", "Low"⟩,
        notes ++ ["No systemic biomarker red flags → Low infection severity"]) := by
  constructor
  · unfold idsa_pedis_with_biomarkers
    simp only [high_flags_ne_nil, mod_flags_ne_nil]
    split_ifs <;> rfl
  · rfl

/-- C3 counterexample: a present toe pressure of 39.5 (resp. TcPO₂ of 29.5)
falls in the uncovered gap of the band conditions: it contributes no
candidate grade and appends no rationale note, and the full refinement
silently ignores both present measurements. -/
theorem perfusion_bands_gap_counterexample :
    toe_block (some (79/2)) (none, []) = (none, []) ∧
    tcpo2_block (some (59/2)) (none, []) = (none, []) ∧
    refine_ischemia_grade 1 none (some (79/2)) (some (59/2)) [] = (1, []) := by
  refine ⟨?_, ?_, ?_⟩ <;>
    norm_num [toe_block, tcpo2_block, refine_ischemia_grade]

/-- C3 (amended): for every present toe pressure outside the open interval
(39, 40) — and every present TcPO₂ outside (29, 30) — the bands cover the
value: the measurement contributes the candidate grade of its band
(3 below, 2 in the middle band, 0 above) and appends one rationale note. -/
theorem perfusion_bands_cover_on_covered_values (t u : ℚ) (notes : List String)
    (ht : t ≤ 39 ∨ 40 ≤ t) (hu : u ≤ 29 ∨ 30 ≤ u) :
    ((toe_block (some t) (none, notes)).1 =
        some (if t < 30 then 3 else if 30 ≤ t ∧ t ≤ 39 then 2 else 0) ∧
      (toe_block (some t) (none, notes)).2.length = notes.length + 1) ∧
    ((tcpo2_block (some u) (none, notes)).1 =
        some (if u < 20 then 3 else if 20 ≤ u ∧ u ≤ 29 then 2 else 0) ∧
      (tcpo2_block (some u) (none, notes)).2.length = notes.length + 1) := by
  constructor
  · unfold toe_block
    dsimp only
    split_ifs with h1 h2 h3
    · exact ⟨by norm_num [py_or], by simp⟩
    · exact ⟨by norm_num [py_or], by simp⟩
    · exact ⟨by norm_num [py_or], by simp⟩
    · exfalso
      rcases ht with h | h
      · exact h2 ⟨by linarith, h⟩
      · exact h3 h
  · unfold tcpo2_block
    dsimp only
    split_ifs with h1 h2 h3
    · exact ⟨by norm_num [py_or], by simp⟩
    · exact ⟨by norm_num [py_or], by simp⟩
    · exact ⟨by norm_num [py_or], by simp⟩
    · exfalso
      rcases hu with h | h
      · exact h2 ⟨by linarith, h⟩
      · exact h3 h

/-- Witness for C3 (amended) at toe pressure 25 and TcPO₂ 25. -/
theorem perfusion_bands_cover_on_covered_values_witness :
    (((25 : ℚ) ≤ 39 ∨ (40 : ℚ) ≤ 25) ∧ ((25 : ℚ) ≤ 29 ∨ (30 : ℚ) ≤ 25)) ∧
    (((toe_block (some 25) (none, [])).1 =
        some (if (25 : ℚ) < 30 then 3 else if (30 : ℚ) ≤ 25 ∧ (25 : ℚ) ≤ 39 then 2 else 0) ∧
      (toe_block (some 25) (none, [])).2.length = ([] : List String).length + 1) ∧
      ((tcpo2_block (some 25) (none, [])).1 =
        some (if (25 : ℚ) < 20 then 3 else if (20 : ℚ) ≤ 25 ∧ (25 : ℚ) ≤ 29 then 2 else 0) ∧
      (tcpo2_block (some 25) (none, [])).2.length = ([] : List String).length + 1)) :=
  ⟨⟨by decide, by decide⟩,
    perfusion_bands_cover_on_covered_values 25 25 [] (by decide) (by decide)⟩

/-- C4 counterexample: with user grade 3, ABI 1.45 and no TcPO₂, toe
pressures 30 ≤ 39.5 give refined grades 2 and 3 respectively: increasing
the toe pressure increased the refined ischemia grade, because 39.5 falls
in the uncovered band gap and the refinement falls back to the user grade. -/
theorem ischemia_monotonicity_counterexample :
    (30 : ℚ) ≤ 79/2 ∧
    (refine_ischemia_grade 3 (some (29/20)) (some 30) none []).1 = 2 ∧
    (refine_ischemia_grade 3 (some (29/20)) (some (79/2)) none []).1 = 3 := by
  refine ⟨by norm_num, ?_, ?_⟩ <;>
    norm_num [refine_ischemia_grade, toe_block, tcpo2_block, py_or]

/-- C4 (amended): the refined ischemia grade is monotone (antitone in the
measurements) provided the compared toe pressures avoid the uncovered gap
(39, 40), and the compared TcPO₂ values avoid (29, 30): with all other
inputs fixed, a larger toe pressure (resp. TcPO₂) never yields a larger
refined grade. -/
theorem ischemia_refinement_monotone_on_covered_values (g : ℤ)
    (abi toe tc : Option ℚ) (t1 t2 u1 u2 : ℚ) (n1 n2 : List String)
    (ht : t1 ≤ t2) (ht1 : t1 ≤ 39 ∨ 40 ≤ t1) (ht2 : t2 ≤ 39 ∨ 40 ≤ t2)
    (hu : u1 ≤ u2) (hu1 : u1 ≤ 29 ∨ 30 ≤ u1) (hu2 : u2 ≤ 29 ∨ 30 ≤ u2) :
    (refine_ischemia_grade g abi (some t2) tc n1).1 ≤
      (refine_ischemia_grade g abi (some t1) tc n2).1 ∧
    (refine_ischemia_grade g abi toe (some u2) n1).1 ≤
      (refine_ischemia_grade g abi toe (some u1) n2).1 := by
  constructor
  · rw [refine_fst, refine_fst]
    unfold derived_val
    rw [obind_some, obind_some, toe_cand_covered t1 ht1, toe_cand_covered t2 ht2]
    rcases htc : tc.bind tc_cand with _ | cc
    · dsimp only
      exact refine_val_mono g abi _ _ (toe_band_antitone t1 t2 ht)
    · dsimp only
      exact refine_val_mono g abi _ _
        (py_or_left_mono _ _ _ (toe_band_nonneg t2) (toe_band_antitone t1 t2 ht))
  · rw [refine_fst, refine_fst]
    unfold derived_val
    rw [obind_some, obind_some, tc_cand_covered u1 hu1, tc_cand_covered u2 hu2]
    dsimp only
    exact refine_val_mono g abi _ _ (py_or_right_mono _ _ _ (tc_band_antitone u1 u2 hu))

/-- Witness for C4 (amended) at user grade 1, no ABI, toe pressures 30 ≤ 45
and TcPO₂ values 20 ≤ 35. -/
theorem ischemia_refinement_monotone_on_covered_values_witness :
    ((30 : ℚ) ≤ 45 ∧ ((30 : ℚ) ≤ 39 ∨ (40 : ℚ) ≤ 30) ∧ ((45 : ℚ) ≤ 39 ∨ (40 : ℚ) ≤ 45) ∧
      (20 : ℚ) ≤ 35 ∧ ((20 : ℚ) ≤ 29 ∨ (30 : ℚ) ≤ 20) ∧ ((35 : ℚ) ≤ 29 ∨ (30 : ℚ) ≤ 35)) ∧
    ((refine_ischemia_grade 1 none (some 45) none []).1 ≤
        (refine_ischemia_grade 1 none (some 30) none []).1 ∧
      (refine_ischemia_grade 1 none none (some 35) []).1 ≤
        (refine_ischemia_grade 1 none none (some 20) []).1) :=
  ⟨⟨by decide, by decide, by decide, by decide, by decide, by decide⟩,
    ischemia_refinement_monotone_on_covered_values 1 none none none 30 45 20 35 [] []
      (by decide) (by decide) (by decide) (by decide) (by decide) (by decide)⟩

end Triage

namespace Triage

/-- C5 counterexample: on the spec's worked example (user ischemia grade 1,
ABI 1.45 = 29/20, toe pressure 25), the refined ischemia grade is not 2 as
the example asserts: a toe pressure of 25 falls in the < 30 band, which
derives grade 3, and the noncompressible ABI prefers the derived grade. -/
theorem spec_example_refined_grade_counterexample :
    (refine_ischemia_grade 1 (some (29/20)) (some 25) none []).1 ≠ 2 := by
  norm_num [refine_ischemia_grade, toe_block, tcpo2_block, py_or]

/-- C5 (amended): on the input {wound 3, ischemia 1, infection 1, ABI 1.45,
toe pressure 25}, the ABI exceeds 1.30 so the derived grade is preferred;
toe pressure 25 derives grade 3 (the < 30 band), so the refined ischemia
grade is 3; stage estimation on (W, I, F) = (3, 3, 1) fires rule 1 (a grade
of 3 with another ≥ 2) and the stage is 4. -/
theorem spec_example_corrected_evaluation :
    (refine_ischemia_grade 1 (some (29/20)) (some 25) none []).1 = 3 ∧
    (evaluate_v2 ⟨3, 1, 1, some (29/20), some 25, none, none, none, none, none, none, none⟩).I = 3 ∧
    (evaluate_v2 ⟨3, 1, 1, some (29/20), some 25, none, none, none, none, none, none, none⟩).wIfI_stage = 4 := by
  refine ⟨?_, ?_, ?_⟩ <;>
    norm_num [evaluate_v2, refine_ischemia_grade, toe_block, tcpo2_block, py_or,
      wifI_stage_estimate, idsa_pedis_with_biomarkers]

/-- C6: when both perfusion measurements are present and both yield a
candidate grade, the derived grade (the state after both blocks of
`refine_ischemia_grade`) is the maximum of the two candidates, including
when one candidate is 0. -/
theorem derived_grade_is_max_of_candidates (t u : ℚ) (ct cu : ℤ)
    (notes : List String) (htoe : toe_cand t = some ct) (htc : tc_cand u = some cu) :
    (tcpo2_block (some u) (toe_block (some t) (none, notes))).1 = some (max ct cu) := by
  rw [tcpo2_block_fst, obind_some, htc]
  rw [toe_block_fst_none, obind_some, htoe]
  dsimp only
  have hct : ct = 0 ∨ ct = 2 ∨ ct = 3 := by
    unfold toe_cand at htoe
    split_ifs at htoe <;> simp_all
  have hcu : cu = 0 ∨ cu = 2 ∨ cu = 3 := by
    unfold tc_cand at htc
    split_ifs at htc <;> simp_all
  unfold py_or
  dsimp only
  rcases hct with h | h | h <;> rcases hcu with h2 | h2 | h2 <;> subst h <;> subst h2 <;> decide

/-- Witness for C6 at toe pressure 45 (candidate 0) and TcPO₂ 15
(candidate 3). -/
theorem derived_grade_is_max_of_candidates_witness :
    (toe_cand 45 = some 0 ∧ tc_cand 15 = some 3) ∧
    (tcpo2_block (some 15) (toe_block (some 45) (none, []))).1 = some (max 0 3) :=
  ⟨⟨by decide, by decide⟩,
    derived_grade_is_max_of_candidates 45 15 0 3 [] (by decide) (by decide)⟩

theorem evaluate_v2_I (c : PatientCase) : (evaluate_v2 c).I = refined_I0 c := rfl

theorem evaluate_v2_stage (c : PatientCase) : (evaluate_v2 c).wIfI_stage = stage0 c := by
  dsimp only [evaluate_v2, stage0, refined_I0]
  rw [wifI_stage_fst_notes _ _ _ _ []]

theorem evaluate_v2_risk_level (c : PatientCase) :
    (evaluate_v2 c).risk_level = (inf0 c).risk_level := by
  dsimp only [evaluate_v2, inf0]
  rw [idsa_fst_notes _ _ _ _ _ []]

theorem evaluate_v2_overall_eq (c : PatientCase) :
    evaluate_v2_overall c =
      (if ((inf0 c).risk_level = "Low" ∨ (inf0 c).risk_level = "Moderate") ∧ 3 ≤ stage0 c
       then "High" else (inf0 c).risk_level) := rfl

theorem evaluate_legacy_stage (c : PatientCase) :
    (evaluate_legacy c).WIfI_stage = stage0 c := by
  dsimp only [evaluate_legacy, stage0, refined_I0]
  rw [wifI_stage_fst_notes _ _ _ _ []]

theorem evaluate_legacy_risk (c : PatientCase) :
    (evaluate_legacy c).AI_risk_level = evaluate_v2_overall c := by
  dsimp only [evaluate_legacy, evaluate_v2_overall]
  rw [idsa_fst_notes _ _ _ _ _ [], wifI_stage_fst_notes _ _ _ _ []]

theorem evaluate_v2_recs (c : PatientCase) :
    (evaluate_v2 c).recommendations =
      (plan_recommendations (stage0 c) ((evaluate_v2 c).risk_level) (refined_I0 c)
        c.HbA1c []).1 := by
  rw [evaluate_v2_risk_level]
  dsimp only [evaluate_v2, stage0, refined_I0, inf0]
  rw [idsa_fst_notes _ _ _ _ _ [], wifI_stage_fst_notes _ _ _ _ []]

theorem idsa_risk_mem (crp esr pct lact : Option ℚ) (n : List String) :
    (idsa_pedis_with_biomarkers crp esr pct lact n).1.risk_level ∈
      (["Low", "Moderate", "High", "Critical"] : List String) := by
  simp only [idsa_pedis_with_biomarkers]
  split_ifs <;> simp

theorem stage_mem (w i f : ℤ) (n : List String) :
    (wifI_stage_estimate w i f n).1 ∈ ([1, 2, 3, 4] : List ℤ) := by
  simp only [wifI_stage_estimate]
  split_ifs <;> simp

theorem plan_recs_ne_nil (stage : ℤ) (inf_level : String) (refined_I : ℤ)
    (hb : Option ℚ) (flags : List String) :
    (plan_recommendations stage inf_level refined_I hb flags).1 ≠ [] := by
  rcases hb with _ | h <;> simp only [plan_recommendations] <;> split_ifs <;> simp

/-- C7: the overall risk level of the computation (the `overall` local of
`evaluate_v2`, identically exposed by the legacy endpoint) equals the
infection risk level, except that an infection risk of Low or Moderate with
stage ≥ 3 is escalated to exactly High, the escalation being logged as the
last rationale entry; consequently the overall risk never ranks below the
raw infection risk under Low < Moderate < High < Critical. -/
theorem overall_risk_merge_matches_spec (c : PatientCase) :
    (evaluate_v2_overall c =
      if ((evaluate_v2 c).risk_level = "Low" ∨ (evaluate_v2 c).risk_level = "Moderate") ∧
          3 ≤ (evaluate_v2 c).wIfI_stage
      then "High" else (evaluate_v2 c).risk_level) ∧
    (evaluate_legacy c).AI_risk_level = evaluate_v2_overall c ∧
    riskRank ((evaluate_v2 c).risk_level) ≤ riskRank (evaluate_v2_overall c) ∧
    (((evaluate_v2 c).risk_level = "Low" ∨ (evaluate_v2 c).risk_level = "Moderate") ∧
        3 ≤ (evaluate_v2 c).wIfI_stage →
      (evaluate_v2 c).rationale.getLast? =
        some ("WIfI Stage " ++ toString (evaluate_v2 c).wIfI_stage ++
          " escalates overall risk → High")) := by
  refine ⟨?_, evaluate_legacy_risk c, ?_, ?_⟩
  · rw [evaluate_v2_risk_level, evaluate_v2_stage, evaluate_v2_overall_eq]
  · rw [evaluate_v2_risk_level, evaluate_v2_overall_eq]
    by_cases h : ((inf0 c).risk_level = "Low" ∨ (inf0 c).risk_level = "Moderate") ∧ 3 ≤ stage0 c
    · rw [if_pos h]
      rcases h.1 with h1 | h1 <;> rw [h1] <;> decide
    · rw [if_neg h]
  · intro hesc
    rw [evaluate_v2_risk_level, evaluate_v2_stage] at hesc
    rw [evaluate_v2_stage]
    dsimp only [evaluate_v2]
    rw [idsa_fst_notes _ _ _ _ _ [], wifI_stage_fst_notes _ _ _ _ []]
    dsimp only [inf0, stage0, refined_I0] at hesc
    rw [if_pos hesc]
    exact List.getLast?_concat _

/-- Witness for C7's escalation implication on the record with grades
(3, 3, 0) and no optional inputs: infection risk is Low, the stage is 4,
and the escalation entry is the last rationale entry. -/
theorem overall_risk_merge_matches_spec_witness :
    (((evaluate_v2 ⟨3, 3, 0, none, none, none, none, none, none, none, none, none⟩).risk_level = "Low" ∨
        (evaluate_v2 ⟨3, 3, 0, none, none, none, none, none, none, none, none, none⟩).risk_level = "Moderate") ∧
      3 ≤ (evaluate_v2 ⟨3, 3, 0, none, none, none, none, none, none, none, none, none⟩).wIfI_stage) ∧
    (evaluate_v2 ⟨3, 3, 0, none, none, none, none, none, none, none, none, none⟩).rationale.getLast? =
      some ("WIfI Stage " ++
        toString (evaluate_v2 ⟨3, 3, 0, none, none, none, none, none, none, none, none, none⟩).wIfI_stage ++
        " escalates overall risk → High") :=
  ⟨⟨by decide, by decide⟩,
    (overall_risk_merge_matches_spec
      ⟨3, 3, 0, none, none, none, none, none, none, none, none, none⟩).2.2.2
      ⟨by decide, by decide⟩⟩

/-- C8: the legacy and detailed endpoints are derived from the same
computation: the legacy stage equals the detailed stage, the legacy risk
level equals the detailed computation's overall risk level, and the legacy
summary is the fixed sentence determined by the overall risk level alone. -/
theorem legacy_endpoint_refines_v2 (c : PatientCase) :
    (evaluate_legacy c).WIfI_stage = (evaluate_v2 c).wIfI_stage ∧
    (evaluate_legacy c).AI_risk_level = evaluate_v2_overall c ∧
    (evaluate_legacy c).AI_summary = legacy_summary_for ((evaluate_legacy c).AI_risk_level) := by
  refine ⟨?_, evaluate_legacy_risk c, ?_⟩
  · rw [evaluate_legacy_stage, evaluate_v2_stage]
  · dsimp only [evaluate_legacy, legacy_summary_for]

/-- C9: the engine is total on all well-typed inputs — any integer grades,
including values outside [0, 3], and any combination of present or absent
optional measurements — and always produces a well-formed output record:
the stage is in {1,2,3,4}, the infection risk level is one of the four
labels, the recommendation list is produced (non-empty), and the legacy
record is equally well-formed. (Totality itself is witnessed by
`evaluate_v2` and `evaluate_legacy` being total functions: every decision
table of the embedding ends in a catch-all branch, exactly as in the
source.) -/
theorem engine_total_wellformed_output (c : PatientCase) :
    (evaluate_v2 c).wIfI_stage ∈ ([1, 2, 3, 4] : List ℤ) ∧
    (evaluate_v2 c).risk_level ∈ (["Low", "Moderate", "High", "Critical"] : List String) ∧
    (evaluate_v2 c).recommendations ≠ [] ∧
    (evaluate_v2 c).version = "1.1.0" ∧
    (evaluate_legacy c).WIfI_stage ∈ ([1, 2, 3, 4] : List ℤ) ∧
    (evaluate_legacy c).AI_risk_level ∈ (["Low", "Moderate", "High", "Critical"] : List String) := by
  refine ⟨?_, ?_, ?_, rfl, ?_, ?_⟩
  · rw [evaluate_v2_stage]
    exact stage_mem _ _ _ _
  · rw [evaluate_v2_risk_level]
    exact idsa_risk_mem _ _ _ _ _
  · rw [evaluate_v2_recs]
    exact plan_recs_ne_nil _ _ _ _ _
  · rw [evaluate_legacy_stage]
    exact stage_mem _ _ _ _
  · rw [evaluate_legacy_risk, evaluate_v2_overall_eq]
    split_ifs
    · simp
    · exact idsa_risk_mem _ _ _ _ _

/-- C10: `plan_recommendations` returns a non-empty recommendation list for
every stage, infection risk level, refined ischemia grade and optional
HbA1c: the infection-driven dispatch ends in an unconditional else branch
adding the routine-care recommendation. -/
theorem plan_recommendations_always_nonempty (stage : ℤ) (inf_level : String)
    (refined_I : ℤ) (hb : Option ℚ) (flags : List String) :
    (plan_recommendations stage inf_level refined_I hb flags).1 ≠ [] := by
  rcases hb with _ | h <;> simp only [plan_recommendations] <;> split_ifs <;> simp

end Triage
